import Mathlib

/-!
Shallow embedding of the AgentConnect negotiation-node sources
(`meta_protocol/meta_protocol.py`, `meta_protocol/protocol_negotiator.py`,
`simple_node/simple_negotion_node.py`, `simple_node/simple_node_session.py`,
`app_protocols/app_protocols.py`, `app_protocols/protocol_container.py`)
and proofs of the spec claims about them.

Modelling conventions:
- bytes are `List Nat` (each entry one byte value);
- Python `None`-able values are `Option`; code that can raise is modelled
  with `Option` results (`none` = exception propagated to the caller shown);
- external effects (the LLM, JSON parsing of LLM output, dynamic class
  loading, SHA-256) are oracle parameters: the embedding is faithful to the
  control flow of the source, while the oracle supplies the external answers;
- each asyncio callback invocation is one atomic step of a trace semantics
  (single-threaded cooperative scheduling, one session).
-/

/-! ## Protocol header codec (`meta_protocol.py`, `ProtocolType`,
`MetaProtocol._encode_protocol_header`, `MetaProtocol._decode_protocol_header`) -/

inductive ProtocolType where
  | META
  | APPLICATION
  | NATURAL
  | VERIFICATION
deriving DecidableEq, Repr

/-- The numeric value of the Python `ProtocolType` enum member. -/
def ProtocolType.val : ProtocolType → Nat
  | .META => 0
  | .APPLICATION => 1
  | .NATURAL => 2
  | .VERIFICATION => 3

/-- `ProtocolType(n)` of the Python enum: `none` models the `ValueError`
raised on a value outside 0..3. -/
def ProtocolType.ofNat? : Nat → Option ProtocolType
  | 0 => some .META
  | 1 => some .APPLICATION
  | 2 => some .NATURAL
  | 3 => some .VERIFICATION
  | _ => none

/-- `MetaProtocol._encode_protocol_header`: the protocol type occupies the
first 2 bits of the single header byte, the remaining 6 bits are reserved
(`header = protocol_type.value << 6`). -/
def encode_protocol_header (t : ProtocolType) : Nat :=
  t.val <<< 6

/-- `MetaProtocol._decode_protocol_header`: `protocol_type = header_byte[0] >> 6`,
then `ProtocolType(protocol_type)`. -/
def decode_protocol_header (b : Nat) : Option ProtocolType :=
  ProtocolType.ofNat? (b >>> 6)

/-! ## Code-generation wait (`MetaProtocol.wait_for_code_generation`) -/

/-- One `codeGeneration` wire message as queued by
`MetaProtocol._handle_code_generation` (the fields read by the waiter). -/
structure CodeGenerationMessage where
  action : String
  status : String
deriving DecidableEq, Repr

/-- `MetaProtocol.wait_for_code_generation`, driven by the arrival queue:
the argument lists every message that will ever be appended to
`code_generation_messages`; exhausting it models the 60-second timeout
(`asyncio.TimeoutError` branch, returning `False`).  The source pops a
message and returns `True` as soon as `message.get("action") ==
"codeGeneration"` — without inspecting `message.get("status")`. -/
def wait_for_code_generation : List CodeGenerationMessage → Bool
  | [] => false
  | m :: rest =>
    if m.action = "codeGeneration" then true
    else wait_for_code_generation rest

/-- `MetaProtocol._create_code_generation_message`. -/
def create_code_generation_message (success : Bool) : CodeGenerationMessage :=
  { action := "codeGeneration", status := if success then "generated" else "error" }

/-! ## Session receive path and demultiplexer
(`SimpleNodeSession.receive_message`, `SimpleNodeSession._decrypt_message`,
`MessageReceiverTask.receive_message_task`,
`MessageReceiverTask.set_app_protocol_handler`) -/

/-- A `message`-typed wire frame as seen by `SimpleNodeSession.receive_message`
after heartbeat and non-message frames have been filtered by its inner loop.
`ok m` is a frame whose `encryptedData` decrypts to plaintext `m`;
`badKeyId` is a frame whose `secretKeyId` differs from the session key's
`secret_key_id`; `badDecrypt` is a frame whose AES-GCM decryption raises. -/
inductive WireFrame where
  | ok (m : List Nat)
  | badKeyId
  | badDecrypt
deriving DecidableEq, Repr

/-- `SimpleNodeSession._decrypt_message`: key-id mismatch and decryption
failure are logged and yield the empty string `''`. -/
def decrypt_message : WireFrame → List Nat
  | .ok m => m
  | .badKeyId => []
  | .badDecrypt => []

/-- `SimpleNodeSession.receive_message` (tail of its loop):
`if decrypted_message: return decrypted_message.encode('utf-8') else: return None`.
An empty (falsy) decryption result becomes `None`. -/
def receive_message (f : WireFrame) : Option (List Nat) :=
  let decrypted_message := decrypt_message f
  if decrypted_message = [] then none else some decrypted_message

/-- One atomic step observed by a session's `MessageReceiverTask`:
either `receive_message` completes on a wire frame, or the orchestrator
invokes `set_app_protocol_handler`. -/
inductive ReceiverEvent where
  | wire (f : WireFrame)
  | setHandler
deriving DecidableEq, Repr

/-- State of one `MessageReceiverTask` together with the observable traces of
handler invocations.  `delivered` records the `handle_message` calls made on
the bound app-protocol handler, `metaDelivered` the
`meta_protocol.handle_meta_data` calls, in order.  `crashed` records that
`receive_message_task` left its `while True` loop through the
`except Exception` handler (after which the task is finished and processes
nothing further). -/
structure ReceiverState where
  handlerSet : Bool
  queue : List (List Nat)
  delivered : List (List Nat)
  metaDelivered : List (List Nat)
  crashed : Bool
deriving DecidableEq, Repr

/-- The initial state of a freshly constructed `MessageReceiverTask`
(`app_protocol_handler = None`, `app_messages_queue = []`). -/
def initialReceiverState : ReceiverState :=
  { handlerSet := false, queue := [], delivered := [], metaDelivered := [], crashed := false }

/-- `MessageReceiverTask.set_app_protocol_handler`: bind the handler, then
drain `app_messages_queue` front-first into `handle_message`. -/
def set_app_protocol_handler (s : ReceiverState) : ReceiverState :=
  { s with handlerSet := true, delivered := s.delivered ++ s.queue, queue := [] }

/-- One iteration of the `while True` body of
`MessageReceiverTask.receive_message_task` on the value returned by
`receive_message`.  `protocol_type = message[0] >> 6`; subscripting `None`
raises `TypeError`, which the task's `except Exception` catches, logs and
then leaves the loop — modelled by `crashed := true`. -/
def receive_message_task_step (s : ReceiverState) (f : WireFrame) : ReceiverState :=
  match receive_message f with
  | none => { s with crashed := true }
  | some message =>
    let protocol_type := message.headD 0 >>> 6
    if protocol_type = ProtocolType.META.val then
      { s with metaDelivered := s.metaDelivered ++ [message] }
    else if protocol_type = ProtocolType.APPLICATION.val then
      if s.handlerSet then { s with delivered := s.delivered ++ [message] }
      else { s with queue := s.queue ++ [message] }
    else
      s

/-- Atomic-step transition of the receiver task and its owner: once the task
has crashed it no longer consumes frames (and the orchestrator's
`set_app_protocol_handler` is modelled as unreachable after the crash,
conservatively leaving the state unchanged). -/
def receiver_step (s : ReceiverState) (e : ReceiverEvent) : ReceiverState :=
  if s.crashed then s
  else
    match e with
    | .setHandler => set_app_protocol_handler s
    | .wire f => receive_message_task_step s f

/-- Run a session's receiver over a trace of events. -/
def receiver_run_from (s : ReceiverState) (evs : List ReceiverEvent) : ReceiverState :=
  evs.foldl receiver_step s

/-- Run a session's receiver over a trace of events from the initial state. -/
def receiver_run (evs : List ReceiverEvent) : ReceiverState :=
  receiver_run_from initialReceiverState evs

/-- Test used by `receive_message_task` to route to the application handler:
the frame decrypted to a non-empty message whose first byte carries
`ProtocolType.APPLICATION` in its top two bits. -/
def isAppFrame (m : List Nat) : Bool :=
  !m.isEmpty && (m.headD 0 >>> 6 == ProtocolType.APPLICATION.val)

/-- The APPLICATION frames received in a trace, in arrival order. -/
def appFrames : List ReceiverEvent → List (List Nat)
  | [] => []
  | .wire (.ok m) :: rest => if isAppFrame m then m :: appFrames rest else appFrames rest
  | .wire .badKeyId :: rest => appFrames rest
  | .wire .badDecrypt :: rest => appFrames rest
  | .setHandler :: rest => appFrames rest

/-- A sample trace: one APPLICATION frame buffered before the handler is
bound, then the handler is bound, then one APPLICATION frame dispatched live
(first byte `64 = 0b01000000` carries `ProtocolType.APPLICATION`). -/
def demoAppTrace : List ReceiverEvent :=
  [.wire (.ok [64, 10]), .setHandler, .wire (.ok [64, 11])]

/-! ## Protocol negotiator (`protocol_negotiator.py`) -/

/-- `NegotiationStatus` enum. -/
inductive NegotiationStatus where
  | NEGOTIATING
  | REJECTED
  | ACCEPTED
deriving DecidableEq, Repr

/-- Python `str.lower()` (character-wise lowering; the status strings
involved are ASCII). -/
def pyLower (s : String) : String := String.mk (s.data.map Char.toLower)

/-- `NegotiationStatus(s)` on a string value: `none` models the `ValueError`
raised for a value that is not one of the enum's values. -/
def NegotiationStatus.ofString? (s : String) : Option NegotiationStatus :=
  if s = "negotiating" then some .NEGOTIATING
  else if s = "rejected" then some .REJECTED
  else if s = "accepted" then some .ACCEPTED
  else none

/-- `NegotiatorRole` enum. -/
inductive NegotiatorRole where
  | PROVIDER
  | REQUESTER
deriving DecidableEq, Repr

/-- `NegotiationResult` (pydantic model).  The optional
`modification_summary` defaults to `""` in the source; `""` stands for both
the empty string and `None` here (the two are interchangeably falsy at every
use site). -/
structure NegotiationResult where
  status : NegotiationStatus
  candidate_protocol : String
  modification_summary : String
deriving DecidableEq, Repr

/-- `NegotiationHistoryEntry`. -/
structure NegotiationHistoryEntry where
  round : Nat
  candidate_protocols : String
  modification_summary : String
deriving DecidableEq, Repr

/-- The mutable fields of `ProtocolNegotiator` that the negotiation logic
reads and writes (`negotiation_round`, `negotiation_history`, `role`;
the requirement/description strings and the capability-info history only
feed LLM prompts, which the LLM oracle already abstracts). -/
structure NegotiatorState where
  negotiation_round : Nat
  negotiation_history : List NegotiationHistoryEntry
  role : NegotiatorRole
deriving DecidableEq, Repr

/-- `ProtocolNegotiator.__init__`: round 0, empty history, role PROVIDER. -/
def initialNegotiatorState : NegotiatorState :=
  { negotiation_round := 0, negotiation_history := [], role := .PROVIDER }

/-- The JSON object parsed from the LLM's final message, as consumed by
`ProtocolNegotiator._parse_negotiation_result` (`result_json.get("status")`,
`result_json.get("candidate_protocol", "")`,
`result_json.get("modification_summary", "")`). -/
structure ResultJson where
  status : Option String
  candidate_protocol : String
  modification_summary : String
deriving DecidableEq, Repr

/-- Outcome of one evaluation call to the LLM (oracle):
`apiError` models an exception raised by `chat.completions.create` itself
(before the round counter advances); `badContent` models an empty assistant
message or content on which `json.loads` raises; `json j` is a successfully
parsed JSON object.  -/
inductive LLMReply where
  | apiError
  | badContent
  | json (j : ResultJson)
deriving DecidableEq, Repr

/-- `ProtocolNegotiator._parse_negotiation_result`.  A missing or falsy
(empty) `status` field is warned about and replaced by REJECTED while the
other fields are kept; an unknown status string raises `ValueError`, which
is caught and mapped to a REJECTED result with an error summary. -/
def parse_negotiation_result (result_json : ResultJson) : NegotiationResult :=
  match result_json.status with
  | none =>
    { status := .REJECTED
      candidate_protocol := result_json.candidate_protocol
      modification_summary := result_json.modification_summary }
  | some status_str =>
    if status_str = "" then
      { status := .REJECTED
        candidate_protocol := result_json.candidate_protocol
        modification_summary := result_json.modification_summary }
    else
      match NegotiationStatus.ofString? (pyLower status_str) with
      | some status =>
        { status := status
          candidate_protocol := result_json.candidate_protocol
          modification_summary := result_json.modification_summary }
      | none =>
        { status := .REJECTED
          candidate_protocol := ""
          modification_summary := "Error parsing result" }

/-- Error result produced by the `except` fallback of the two evaluation
methods. -/
def evaluationErrorResult : NegotiationResult :=
  { status := .REJECTED, candidate_protocol := "", modification_summary := "Error during evaluation" }

/-- `ProtocolNegotiator._evaluate_as_requester`.  On a successful API call
the raw content is parsed by `json.loads` BEFORE `negotiation_round += 2`
(so `badContent` leaves the round unchanged); an ACCEPTED verdict has its
`candidate_protocol` overwritten with the counterparty's proposal; a
NEGOTIATING verdict is appended to the history. -/
def evaluate_as_requester (st : NegotiatorState) (candidate_protocols : String)
    (reply : LLMReply) : NegotiationResult × NegotiatorState :=
  match reply with
  | .apiError => (evaluationErrorResult, st)
  | .badContent => (evaluationErrorResult, st)
  | .json j =>
    let st := { st with negotiation_round := st.negotiation_round + 2 }
    let parsed := parse_negotiation_result j
    let result :=
      if parsed.status = .ACCEPTED then
        { parsed with candidate_protocol := candidate_protocols }
      else parsed
    let st :=
      if result.status = .NEGOTIATING then
        { st with negotiation_history := st.negotiation_history
            ++ [{ round := st.negotiation_round
                  candidate_protocols := result.candidate_protocol
                  modification_summary := result.modification_summary }] }
      else st
    (result, st)

/-- `ProtocolNegotiator._evaluate_as_provider`.  Identical round/override/
history handling, except that `negotiation_round += 2` happens BEFORE the
final content is inspected, so an empty or unparseable assistant message
(`badContent`) still advances the round. -/
def evaluate_as_provider (st : NegotiatorState) (candidate_protocols : String)
    (reply : LLMReply) : NegotiationResult × NegotiatorState :=
  match reply with
  | .apiError => (evaluationErrorResult, st)
  | .badContent =>
    (evaluationErrorResult, { st with negotiation_round := st.negotiation_round + 2 })
  | .json j =>
    let st := { st with negotiation_round := st.negotiation_round + 2 }
    let parsed := parse_negotiation_result j
    let result :=
      if parsed.status = .ACCEPTED then
        { parsed with candidate_protocol := candidate_protocols }
      else parsed
    let st :=
      if result.status = .NEGOTIATING then
        { st with negotiation_history := st.negotiation_history
            ++ [{ round := st.negotiation_round
                  candidate_protocols := result.candidate_protocol
                  modification_summary := result.modification_summary }] }
      else st
    (result, st)

/-- Everything `ProtocolNegotiator.evaluate_protocol_proposal` produces:
the negotiation result, the returned current round, the updated negotiator
state, and whether the "Invalid round number" error was logged for a
counterparty `sequenceId` different from `negotiation_round + 1`. -/
structure EvalOutput where
  result : NegotiationResult
  round : Nat
  state : NegotiatorState
  roundMismatchLogged : Bool
deriving DecidableEq, Repr

/-- `ProtocolNegotiator.evaluate_protocol_proposal`.  The round-number check
only logs (the rejecting branch is commented out in the source); an inbound
ACCEPTED echoes the latest history entry (or, with empty history, the
received proposal); an inbound REJECTED is final; otherwise the evaluation
is delegated per role. -/
def evaluate_protocol_proposal (st : NegotiatorState)
    (negotiation_status : NegotiationStatus) (counterparty_round : Option Int)
    (candidate_protocols : String) (reply : LLMReply) : EvalOutput :=
  let mismatch :=
    match counterparty_round with
    | none => false
    | some r => decide (r ≠ (st.negotiation_round : Int) + 1)
  match negotiation_status with
  | .ACCEPTED =>
    let cp :=
      match st.negotiation_history.getLast? with
      | some entry => entry.candidate_protocols
      | none => candidate_protocols
    { result := { status := .ACCEPTED, candidate_protocol := cp, modification_summary := "" }
      round := st.negotiation_round
      state := st
      roundMismatchLogged := mismatch }
  | .REJECTED =>
    { result := { status := .REJECTED, candidate_protocol := "", modification_summary := "" }
      round := st.negotiation_round
      state := st
      roundMismatchLogged := mismatch }
  | .NEGOTIATING =>
    let rs :=
      match st.role with
      | .PROVIDER => evaluate_as_provider st candidate_protocols reply
      | .REQUESTER => evaluate_as_requester st candidate_protocols reply
    { result := rs.1
      round := rs.2.negotiation_round
      state := rs.2
      roundMismatchLogged := mismatch }

/-- Oracle for `ProtocolNegotiator.generate_initial_protocol`: the initial
LLM call either returns the protocol text or raises. -/
inductive InitialLLM where
  | ok (protocol : String)
  | raise
deriving DecidableEq, Repr

/-- `ProtocolNegotiator.generate_initial_protocol`: sets role REQUESTER and
round 1, appends the successful proposal to the history, and returns
`(protocol, status, round)`; a raising LLM call yields `("", REJECTED, 1)`
with no history entry. -/
def generate_initial_protocol (o : InitialLLM) :
    String × NegotiationStatus × Nat × NegotiatorState :=
  match o with
  | .ok protocol =>
    (protocol, .NEGOTIATING, 1,
      { negotiation_round := 1
        negotiation_history :=
          [{ round := 1, candidate_protocols := protocol, modification_summary := "" }]
        role := .REQUESTER })
  | .raise =>
    ("", .REJECTED, 1,
      { negotiation_round := 1, negotiation_history := [], role := .REQUESTER })

/-! ## Meta-protocol negotiation flow (`meta_protocol.py`) -/

/-- `MetaProtocol.__init__`: `self.max_negotiation_rounds = 10`.  (This
attribute is assigned once and read nowhere else in the source.) -/
def max_negotiation_rounds : Nat := 10

/-- One inbound `protocolNegotiation` message popped from
`negotiation_messages` by `MetaProtocol._process_negotiation_messages`,
paired with the oracle's reply for the LLM evaluation that this message
triggers (ignored when the inbound status is terminal).
`sequenceId` is `data.get("sequenceId")`; a missing status defaults to
NEGOTIATING (`data.get("status", NegotiationStatus.NEGOTIATING.value)`). -/
structure InboundMessage where
  sequenceId : Option Int
  candidateProtocols : String
  modificationSummary : String
  status : NegotiationStatus
  llm : LLMReply
deriving DecidableEq, Repr

/-- What `MetaProtocol._process_negotiation_messages` produces: the returned
`(is_success, protocol)` pair, the `(sequence_id, status)` of every
`protocolNegotiation` response frame it sent, and the final negotiator
state. -/
structure ProcessOutcome where
  success : Bool
  protocol : String
  emissions : List (Nat × NegotiationStatus)
  finalState : NegotiatorState
deriving DecidableEq, Repr

/-- `MetaProtocol._process_negotiation_messages`, driven by the list of
inbound messages that will arrive (in order).  Exhausting the list models
the 60-second `asyncio.TimeoutError`, which returns `(False, "")`.
Each message is evaluated; a NEGOTIATING result sends a response and loops,
REJECTED sends the rejection and returns `(False, "")`, ACCEPTED sends the
acceptance and returns `(True, result.candidate_protocol)`.  No bound on
the number of processed messages is consulted anywhere. -/
def process_negotiation_messages (st : NegotiatorState) :
    List InboundMessage → ProcessOutcome
  | [] => { success := false, protocol := "", emissions := [], finalState := st }
  | msg :: rest =>
    let out := evaluate_protocol_proposal st msg.status msg.sequenceId
      msg.candidateProtocols msg.llm
    match out.result.status with
    | .NEGOTIATING =>
      let tail := process_negotiation_messages out.state rest
      { tail with emissions := (out.round, NegotiationStatus.NEGOTIATING) :: tail.emissions }
    | .REJECTED =>
      { success := false, protocol := ""
        emissions := [(out.round, NegotiationStatus.REJECTED)], finalState := out.state }
    | .ACCEPTED =>
      { success := true, protocol := out.result.candidate_protocol
        emissions := [(out.round, NegotiationStatus.ACCEPTED)], finalState := out.state }

/-- Oracle for `ProtocolCodeGenerator.generate()`: either the call raises,
or it returns `(success, module_path)`. -/
inductive CodeGenOutcome where
  | raise
  | result (success : Bool) (module_path : String)
deriving DecidableEq, Repr

/-- What `MetaProtocol.negotiate_protocol` / `wait_remote_negotiation`
produce: the returned `(is_success, module_path)` pair plus the sent
`protocolNegotiation` frames and the final negotiator state. -/
structure NegotiateOutcome where
  success : Bool
  module_path : String
  emissions : List (Nat × NegotiationStatus)
  finalState : NegotiatorState
deriving DecidableEq, Repr

/-- `MetaProtocol.negotiate_protocol` (requester side).
`protocol_code_path_set` / `llm_set` model the truthiness of
`self.protocol_code_path` / `self.llm`.  The initial proposal frame is sent
unconditionally with the round returned by `generate_initial_protocol`;
after a successful negotiation, code generation runs only when both the
code path and the LLM are set, and otherwise the method falls through to
`return False, ""`. -/
def negotiate_protocol (protocol_code_path_set llm_set : Bool)
    (initial : InitialLLM) (messages : List InboundMessage)
    (code_gen : CodeGenOutcome) : NegotiateOutcome :=
  let init := generate_initial_protocol initial
  let round_num := init.2.2.1
  let status := init.2.1
  let st := init.2.2.2
  let po := process_negotiation_messages st messages
  let emissions := (round_num, status) :: po.emissions
  if po.success = false then
    { success := false, module_path := "", emissions := emissions, finalState := po.finalState }
  else if protocol_code_path_set && llm_set then
    match code_gen with
    | .raise =>
      { success := false, module_path := "", emissions := emissions, finalState := po.finalState }
    | .result true module_path =>
      { success := true, module_path := module_path, emissions := emissions
        finalState := po.finalState }
    | .result false _ =>
      { success := false, module_path := "", emissions := emissions, finalState := po.finalState }
  else
    { success := false, module_path := "", emissions := emissions, finalState := po.finalState }

/-- `MetaProtocol.wait_remote_negotiation` (provider side): same as
`negotiate_protocol` but with a fresh `ProtocolNegotiator` (round 0, role
PROVIDER) and no initial proposal frame. -/
def wait_remote_negotiation (protocol_code_path_set llm_set : Bool)
    (messages : List InboundMessage) (code_gen : CodeGenOutcome) : NegotiateOutcome :=
  let po := process_negotiation_messages initialNegotiatorState messages
  if po.success = false then
    { success := false, module_path := "", emissions := po.emissions, finalState := po.finalState }
  else if protocol_code_path_set && llm_set then
    match code_gen with
    | .raise =>
      { success := false, module_path := "", emissions := po.emissions, finalState := po.finalState }
    | .result true module_path =>
      { success := true, module_path := module_path, emissions := po.emissions
        finalState := po.finalState }
    | .result false _ =>
      { success := false, module_path := "", emissions := po.emissions, finalState := po.finalState }
  else
    { success := false, module_path := "", emissions := po.emissions, finalState := po.finalState }

/-! ## Protocol artifact registry
(`app_protocols/app_protocols.py`, `app_protocols/protocol_container.py`) -/

/-- On-disk state: an association of absolute paths to file contents
(bytes); a missing path means the file does not exist. -/
abbrev FileSystem := List (String × List Nat)

/-- `os.path.join(dir, f)` for the relative names used by the loader. -/
def joinPath (dir f : String) : String := dir ++ "/" ++ f

/-- Read a file: `some` content iff the path exists. -/
def fsRead (fs : FileSystem) (p : String) : Option (List Nat) :=
  (fs.find? (fun e => e.1 == p)).map (fun e => e.2)

/-- One entry of the `files` map of `meta_data.json`: `{file, hash}`. -/
structure BundleFileInfo where
  file : String
  hash : String
deriving DecidableEq, Repr

/-- The parsed `meta_data.json` (the `files` map keyed by
`protocol_document`, `requester`, `requester_description`, `provider`,
`provider_description`). -/
structure BundleMetaData where
  files : List (String × BundleFileInfo)
deriving DecidableEq, Repr

/-- `meta_data['files'][key]`: `none` models the `KeyError`. -/
def BundleMetaData.getFile? (md : BundleMetaData) (key : String) : Option BundleFileInfo :=
  (md.files.find? (fun e => e.1 == key)).map (fun e => e.2)

/-- The SHA-256 oracle: `hashFn c` is the `"sha256:<hex>"` string that
`AppProtocols.calculate_file_hash` computes over content `c`. -/
abbrev HashFn := List Nat → String

/-- `AppProtocols.calculate_file_hash`: recompute the hash from the bytes on
disk (`none` when `open` raises because the file is missing). -/
def calculate_file_hash (hashFn : HashFn) (fs : FileSystem) (p : String) : Option String :=
  (fsRead fs p).map hashFn

/-- `AppProtocols.verify_file_hash`. -/
def verify_file_hash (hashFn : HashFn) (fs : FileSystem) (p : String)
    (expected_hash : String) : Bool :=
  calculate_file_hash hashFn fs p == some expected_hash

/-- `AppProtocols.verify_protocol_files`: every entry of `meta_data['files']`
must exist on disk and its freshly recomputed hash must equal the recorded
one. -/
def verify_protocol_files (hashFn : HashFn) (fs : FileSystem) (protocol_dir : String)
    (meta_data : BundleMetaData) : Bool :=
  meta_data.files.all fun e =>
    match fsRead fs (joinPath protocol_dir e.2.file) with
    | none => false
    | some _ => verify_file_hash hashFn fs (joinPath protocol_dir e.2.file) e.2.hash

/-- One entry of a description file's `interfaces` list, carrying the
function name and, when present under
`function.parameters.properties.callback`, the callback descriptor. -/
structure InterfaceEntry where
  functionName : String
  callbackDesc : Option String
deriving DecidableEq, Repr

/-- `desc_data['definitions'][0]['class']` of a description file. -/
structure ClassInfo where
  name : String
  interfaces : List InterfaceEntry
deriving DecidableEq, Repr

/-- Oracles for the external effects of bundle loading: JSON parsing and
dynamic Python class loading.  `parseMeta c = none` models `json.load`
raising on content `c`; `parseClassInfo c = none` models a raise in
`_extract_class_info` (bad JSON or missing keys); `loadPythonClassOk p n`
says whether `_load_python_class(p, n)` returns a class (rather than `None`)
and `isRequesterSubclass n` / `isProviderSubclass n` whether that class
subclasses `RequesterBase` / `ProviderBase`. -/
structure LoadOracle where
  parseMeta : List Nat → Option BundleMetaData
  parseClassInfo : List Nat → Option ClassInfo
  loadPythonClassOk : String → String → Bool
  isRequesterSubclass : String → Bool
  isProviderSubclass : String → Bool

/-- `RequesterContainer` after construction (classes are represented by
their recorded class name). -/
structure RequesterContainer where
  protocol_hash : String
  protocol_content : List Nat
  class_info : ClassInfo
  send_request_description : Option InterfaceEntry
  requester_class : Option String
deriving DecidableEq, Repr

/-- `ProviderContainer` after construction. -/
structure ProviderContainer where
  protocol_hash : String
  protocol_content : List Nat
  class_info : ClassInfo
  protocol_callback_description : Option String
  provider_class : Option String
deriving DecidableEq, Repr

/-- `RequesterContainer.__init__` (with the `ProtocolContainer` base
constructor inlined first, as `super().__init__` runs first): `none` models
an exception escaping the constructor. -/
def mkRequesterContainer (o : LoadOracle) (fs : FileSystem) (protocol_dir : String)
    (meta_data : BundleMetaData) : Option RequesterContainer :=
  match meta_data.getFile? "protocol_document" with
  | none => none
  | some doc_info =>
    match fsRead fs (joinPath protocol_dir doc_info.file) with
    | none => none
    | some content =>
      match meta_data.getFile? "requester_description" with
      | none => none
      | some desc_info =>
        match fsRead fs (joinPath protocol_dir desc_info.file) with
        | none => none
        | some desc_bytes =>
          match o.parseClassInfo desc_bytes with
          | none => none
          | some class_info =>
            let send_request_description :=
              class_info.interfaces.find? (fun i => i.functionName == "send_request")
            match meta_data.getFile? "requester" with
            | none => none
            | some req_info =>
              let requester_class :=
                if o.loadPythonClassOk (joinPath protocol_dir req_info.file) class_info.name
                    && o.isRequesterSubclass class_info.name
                then some class_info.name
                else none
              some { protocol_hash := doc_info.hash
                     protocol_content := content
                     class_info := class_info
                     send_request_description := send_request_description
                     requester_class := requester_class }

/-- `ProviderContainer._extract_protocol_callback_description`: a missing
`set_protocol_callback` interface yields `None`; a present interface without
the `parameters.properties.callback` key raises `KeyError` (outer `none`). -/
def extract_protocol_callback_description (class_info : ClassInfo) :
    Option (Option String) :=
  match class_info.interfaces.find? (fun i => i.functionName == "set_protocol_callback") with
  | none => some none
  | some entry =>
    match entry.callbackDesc with
    | none => none
    | some d => some (some d)

/-- `ProviderContainer.__init__` (base constructor inlined first). -/
def mkProviderContainer (o : LoadOracle) (fs : FileSystem) (protocol_dir : String)
    (meta_data : BundleMetaData) : Option ProviderContainer :=
  match meta_data.getFile? "protocol_document" with
  | none => none
  | some doc_info =>
    match fsRead fs (joinPath protocol_dir doc_info.file) with
    | none => none
    | some content =>
      match meta_data.getFile? "provider_description" with
      | none => none
      | some desc_info =>
        match fsRead fs (joinPath protocol_dir desc_info.file) with
        | none => none
        | some desc_bytes =>
          match o.parseClassInfo desc_bytes with
          | none => none
          | some class_info =>
            match extract_protocol_callback_description class_info with
            | none => none
            | some cb_desc =>
              match meta_data.getFile? "provider" with
              | none => none
              | some prov_info =>
                let provider_class :=
                  if o.loadPythonClassOk (joinPath protocol_dir prov_info.file) class_info.name
                      && o.isProviderSubclass class_info.name
                  then some class_info.name
                  else none
                some { protocol_hash := doc_info.hash
                       protocol_content := content
                       class_info := class_info
                       protocol_callback_description := cb_desc
                       provider_class := provider_class }

/-- The two registries of `AppProtocols`, keyed by protocol hash. -/
structure AppProtocolsState where
  requester_protocols : List (String × RequesterContainer)
  provider_protocols : List (String × ProviderContainer)
deriving DecidableEq, Repr

/-- Python `dict[key] = value`. -/
def registryInsert {α : Type} (key : String) (val : α) (l : List (String × α)) :
    List (String × α) :=
  (key, val) :: l.filter (fun e => e.1 ≠ key)

/-- The `if requester_container.requester_class:` block of
`AppProtocols.load_protocol`: register the container and record its hash. -/
def register_requester (st : AppProtocolsState) (rc : RequesterContainer) :
    Option String × AppProtocolsState :=
  match rc.requester_class with
  | some _ =>
    (some rc.protocol_hash,
      { st with requester_protocols :=
          registryInsert rc.protocol_hash rc st.requester_protocols })
  | none => (none, st)

/-- The `if provider_container.provider_class:` block of
`AppProtocols.load_protocol`: register the container and record its hash,
keeping the previously recorded hash otherwise. -/
def register_provider (prev : Option String) (st : AppProtocolsState)
    (pc : ProviderContainer) : Option String × AppProtocolsState :=
  match pc.provider_class with
  | some _ =>
    (some pc.protocol_hash,
      { st with provider_protocols :=
          registryInsert pc.protocol_hash pc st.provider_protocols })
  | none => (prev, st)

/-- `AppProtocols.load_protocol`.  The `try` block returns `None` on any
exception; `meta_data.json` must exist, parse, and pass
`verify_protocol_files` before any container is built; the requester
container is built (and, when its class loaded, registered) before the
provider container, and the returned hash is the hash of whichever
container(s) registered a class (`None` when neither did). -/
def load_protocol (o : LoadOracle) (hashFn : HashFn) (fs : FileSystem)
    (st : AppProtocolsState) (protocol_dir : String) :
    Option String × AppProtocolsState :=
  match fsRead fs (joinPath protocol_dir "meta_data.json") with
  | none => (none, st)
  | some meta_bytes =>
    match o.parseMeta meta_bytes with
    | none => (none, st)
    | some meta_data =>
      if verify_protocol_files hashFn fs protocol_dir meta_data then
        match mkRequesterContainer o fs protocol_dir meta_data with
        | none => (none, st)
        | some rc =>
          let step1 := register_requester st rc
          match mkProviderContainer o fs protocol_dir meta_data with
          | none => (none, step1.2)
          | some pc => register_provider step1.1 step1.2 pc
      else (none, st)

/-! ## Claim-side predicates and concrete scenarios -/

/-- A one-bundle metadata recording `doc.md` with hash `sha256:aaa`. -/
def demoMeta : BundleMetaData :=
  { files := [("protocol_document", { file := "doc.md", hash := "sha256:aaa" })] }

/-- A disk holding only the bundle's `meta_data.json` (content `[0]`):
the recorded `doc.md` is missing. -/
def demoFS : FileSystem := [("proto/meta_data.json", [0])]

/-- A sample hash oracle. -/
def demoHashFn : HashFn := fun c => if c = [1] then "sha256:aaa" else "sha256:bbb"

/-- A load oracle that parses content `[0]` as `demoMeta`. -/
def demoOracle : LoadOracle :=
  { parseMeta := fun c => if c = [0] then some demoMeta else none
    parseClassInfo := fun _ => none
    loadPythonClassOk := fun _ _ => false
    isRequesterSubclass := fun _ => false
    isProviderSubclass := fun _ => false }

/-- Empty registries. -/
def demoState : AppProtocolsState := { requester_protocols := [], provider_protocols := [] }

/-- The emitted `sequenceId` values of a negotiation run, in send order. -/
def emittedRounds (o : NegotiateOutcome) : List Nat :=
  o.emissions.map Prod.fst

/-- Spec-side predicate (claim C6 as stated): the list is a strictly
increasing arithmetic progression with step 2. -/
def isStrictStepTwo : List Nat → Bool
  | [] => true
  | [_] => true
  | a :: b :: t => (b == a + 2) && isStrictStepTwo (b :: t)

/-- Chain checker: starting from counter value `r`, every element repeats
the previous value or advances it by exactly 2. -/
def stepZeroOrTwoFrom (r : Nat) : List Nat → Bool
  | [] => true
  | x :: xs => (x == r || x == r + 2) && stepZeroOrTwoFrom x xs

/-- An LLM evaluation verdict of ACCEPTED with a non-empty own proposal. -/
def demoAcceptedReply : LLMReply :=
  .json { status := some "accepted", candidate_protocol := "LLMPROPOSAL", modification_summary := "" }

/-- An LLM evaluation verdict of NEGOTIATING with a revised proposal. -/
def demoNegotiatingReply : LLMReply :=
  .json { status := some "negotiating", candidate_protocol := "REVISED", modification_summary := "changes" }

/-- An inbound terminal ACCEPTED message (its `llm` field is unused). -/
def demoAcceptInbound : InboundMessage :=
  { sequenceId := some 2, candidateProtocols := "AGREED", modificationSummary := ""
    status := .ACCEPTED, llm := .apiError }

/-- An inbound NEGOTIATING proposal carrying counterparty round `i`. -/
def demoNegotiatingInbound (i : Int) : InboundMessage :=
  { sequenceId := some i, candidateProtocols := "AGREED", modificationSummary := ""
    status := .NEGOTIATING, llm := demoNegotiatingReply }

/-- A 13-message negotiation: twelve NEGOTIATING exchanges, then ACCEPTED. -/
def longNegotiationMessages : List InboundMessage :=
  ((List.range 12).map fun i => demoNegotiatingInbound (2 * (i : Int) + 2))
    ++ [demoAcceptInbound]

/-- Requester-side run over `longNegotiationMessages` with code path and LLM
configured and a successful code generation. -/
def longNegotiationRun : NegotiateOutcome :=
  negotiate_protocol true true (.ok "P0") longNegotiationMessages (.result true "generated_module")

/-- Requester-side run where the provider accepts the initial proposal. -/
def requesterAcceptRun : NegotiateOutcome :=
  negotiate_protocol true true (.ok "AGREED") [demoAcceptInbound] (.result true "generated_module")

/-- The provider-side inbound view of the same exchange: the requester's
initial round-1 proposal, which the provider's LLM accepts. -/
def providerAcceptMessages : List InboundMessage :=
  [{ sequenceId := some 1, candidateProtocols := "AGREED", modificationSummary := ""
     status := .NEGOTIATING, llm := demoAcceptedReply }]

/-- Provider-side run over `providerAcceptMessages`. -/
def providerAcceptRun : NegotiateOutcome :=
  wait_remote_negotiation true true providerAcceptMessages (.result true "generated_module")

/-! ## Proofs: receiver/demultiplexer -/

lemma receiver_run_from_cons (s : ReceiverState) (e : ReceiverEvent)
    (evs : List ReceiverEvent) :
    receiver_run_from s (e :: evs) = receiver_run_from (receiver_step s e) evs := rfl

lemma receiver_step_of_crashed (s : ReceiverState) (e : ReceiverEvent)
    (h : s.crashed = true) : receiver_step s e = s := by
  simp [receiver_step, h]

/-- A crashed receiver task consumes nothing further. -/
lemma receiver_run_from_crashed (evs : List ReceiverEvent) (s : ReceiverState)
    (h : s.crashed = true) : receiver_run_from s evs = s := by
  induction evs with
  | nil => rfl
  | cons e evs ih =>
    rw [receiver_run_from_cons, receiver_step_of_crashed s e h]
    exact ih

/-- One non-crashing step of the receiver accounts exactly for the
APPLICATION frames of that step and preserves the drained-queue invariant. -/
lemma receiver_step_spec (s : ReceiverState) (e : ReceiverEvent)
    (hc : s.crashed = false) (hinv : s.handlerSet = true → s.queue = [])
    (hsc : (receiver_step s e).crashed = false) :
    (receiver_step s e).delivered ++ (receiver_step s e).queue
        = s.delivered ++ s.queue ++ appFrames [e]
    ∧ ((receiver_step s e).handlerSet = true → (receiver_step s e).queue = []) := by
  cases e with
  | setHandler =>
    refine ⟨?_, ?_⟩
    · simp [receiver_step, hc, set_app_protocol_handler, appFrames]
    · intro _
      simp [receiver_step, hc, set_app_protocol_handler]
  | wire f =>
    cases f with
    | badKeyId =>
      exfalso
      simp [receiver_step, hc, receive_message_task_step, receive_message,
        decrypt_message] at hsc
    | badDecrypt =>
      exfalso
      simp [receiver_step, hc, receive_message_task_step, receive_message,
        decrypt_message] at hsc
    | ok m =>
      cases m with
      | nil =>
        exfalso
        simp [receiver_step, hc, receive_message_task_step, receive_message,
          decrypt_message] at hsc
      | cons a t =>
        have hrecv : receive_message (.ok (a :: t)) = some (a :: t) := by
          simp [receive_message, decrypt_message]
        by_cases h0 : a >>> 6 = 0
        · have hs' : receiver_step s (.wire (.ok (a :: t)))
              = { s with metaDelivered := s.metaDelivered ++ [a :: t] } := by
            simp [receiver_step, hc, receive_message_task_step, hrecv, ProtocolType.val, h0]
          rw [hs']
          refine ⟨?_, fun hh => hinv hh⟩
          simp [appFrames, isAppFrame, ProtocolType.val, h0]
        · by_cases h1 : a >>> 6 = 1
          · have hisapp : isAppFrame (a :: t) = true := by
              simp [isAppFrame, ProtocolType.val, h1]
            by_cases hh : s.handlerSet = true
            · have hq : s.queue = [] := hinv hh
              have hs' : receiver_step s (.wire (.ok (a :: t)))
                  = { s with delivered := s.delivered ++ [a :: t] } := by
                simp [receiver_step, hc, receive_message_task_step, hrecv,
                  ProtocolType.val, h0, h1, hh]
              rw [hs']
              refine ⟨?_, fun _ => hq⟩
              simp [appFrames, hisapp, hq]
            · have hs' : receiver_step s (.wire (.ok (a :: t)))
                  = { s with queue := s.queue ++ [a :: t] } := by
                simp [receiver_step, hc, receive_message_task_step, hrecv,
                  ProtocolType.val, h0, h1, hh]
              rw [hs']
              refine ⟨?_, fun hcontra => absurd hcontra hh⟩
              simp [appFrames, hisapp]
          · have hs' : receiver_step s (.wire (.ok (a :: t))) = s := by
              simp [receiver_step, hc, receive_message_task_step, hrecv,
                ProtocolType.val, h0, h1]
            rw [hs']
            refine ⟨?_, hinv⟩
            simp [appFrames, isAppFrame, ProtocolType.val, h1]

lemma appFrames_cons (e : ReceiverEvent) (evs : List ReceiverEvent) :
    appFrames (e :: evs) = appFrames [e] ++ appFrames evs := by
  cases e with
  | setHandler => simp [appFrames]
  | wire f =>
    cases f with
    | ok m =>
      by_cases h : isAppFrame m = true
      · simp [appFrames, h]
      · simp [appFrames, Bool.of_not_eq_true h]
    | badKeyId => simp [appFrames]
    | badDecrypt => simp [appFrames]

/-- Invariant carried through the run: unless the receiver crashes,
`delivered ++ queue` equals the previously accounted frames followed by the
APPLICATION frames of the trace, and the queue is empty whenever the handler
is bound. -/
lemma receiver_run_from_spec (evs : List ReceiverEvent) :
    ∀ s : ReceiverState, s.crashed = false → (s.handlerSet = true → s.queue = []) →
    (receiver_run_from s evs).crashed = false →
    (receiver_run_from s evs).delivered ++ (receiver_run_from s evs).queue
        = s.delivered ++ s.queue ++ appFrames evs
    ∧ ((receiver_run_from s evs).handlerSet = true → (receiver_run_from s evs).queue = []) := by
  induction evs with
  | nil =>
    intro s _ hinv _
    exact ⟨by simp [receiver_run_from, appFrames], hinv⟩
  | cons e evs ih =>
    intro s hc hinv hfin
    rw [receiver_run_from_cons] at hfin ⊢
    have hsc : (receiver_step s e).crashed = false := by
      cases hcr : (receiver_step s e).crashed
      · rfl
      · rw [receiver_run_from_crashed evs _ hcr, hcr] at hfin
        exact Bool.noConfusion hfin
    obtain ⟨heq1, hinv1⟩ := receiver_step_spec s e hc hinv hsc
    obtain ⟨heq2, hinv2⟩ := ih (receiver_step s e) hsc hinv1 hfin
    refine ⟨?_, hinv2⟩
    rw [heq2, heq1, appFrames_cons e evs]
    simp [List.append_assoc]

/-- C1: every APPLICATION frame received while no app protocol handler is
bound is appended to the buffer and never dropped; once
`set_app_protocol_handler` runs, the buffered frames have been delivered
exactly once, in FIFO arrival order, ahead of any live-dispatched frame:
in every non-crashing trace, the frames delivered to the handler followed by
the frames still buffered are exactly the received APPLICATION frames in
arrival order, and the buffer is empty whenever the handler is bound. -/
theorem app_frames_never_dropped (evs : List ReceiverEvent)
    (h : (receiver_run evs).crashed = false) :
    (receiver_run evs).delivered ++ (receiver_run evs).queue = appFrames evs
    ∧ ((receiver_run evs).handlerSet = true → (receiver_run evs).queue = []) := by
  have hspec := receiver_run_from_spec evs initialReceiverState rfl
    (fun hcontra => Bool.noConfusion hcontra) h
  simpa [initialReceiverState] using hspec

/-- Witness for C1 on a concrete trace: one buffered APPLICATION frame, the
handler binding, one live APPLICATION frame. -/
theorem app_frames_never_dropped_witness :
    (receiver_run demoAppTrace).delivered ++ (receiver_run demoAppTrace).queue
      = appFrames demoAppTrace :=
  (app_frames_never_dropped demoAppTrace (by decide)).1

/-- C5 (documents the code bug): a decryption failure makes
`receive_message` return `None`, `receive_message_task` then raises
`TypeError` on `message[0]` and leaves its loop — so a subsequent
APPLICATION frame is neither dispatched nor buffered: the receiver has
terminated instead of skipping the bad frame. -/
theorem decrypt_failure_terminates_receiver :
    (receiver_run [.wire .badDecrypt, .wire (.ok [64, 99])]).crashed = true
    ∧ (receiver_run [.wire .badDecrypt, .wire (.ok [64, 99])]).delivered = []
    ∧ (receiver_run [.wire .badDecrypt, .wire (.ok [64, 99])]).queue = []
    ∧ appFrames [.wire .badDecrypt, .wire (.ok [64, 99])] = [[64, 99]] := by
  decide

/-- C4 (documents the code bug): `wait_for_code_generation` answers `True`
to the peer's `codeGeneration` frame even when that frame carries
`status:"error"` — the status field is never inspected. -/
theorem code_generation_error_reported_as_success :
    wait_for_code_generation [create_code_generation_message false] = true
    ∧ (create_code_generation_message false).status = "error" := by
  decide

/-- C9: for every protocol type, decoding the header byte emitted by
`_encode_protocol_header` recovers the type, the byte's low 6 bits are
zero, and the header fits in one byte. -/
theorem protocol_header_roundtrip (t : ProtocolType) :
    decode_protocol_header (encode_protocol_header t) = some t
    ∧ encode_protocol_header t % 64 = 0
    ∧ encode_protocol_header t < 256 := by
  cases t <;> decide

/-- C3 (documents the code bug): `max_negotiation_rounds` is fixed at 10
yet a negotiation that runs 12 NEGOTIATING exchanges (final round counter
25) still terminates with success — the cap is never consulted and the loop
keeps exchanging proposals instead of returning `(False, "")`. -/
theorem max_rounds_cap_never_enforced :
    longNegotiationRun.success = true
    ∧ longNegotiationRun.module_path = "generated_module"
    ∧ longNegotiationRun.finalState.negotiation_round = 25
    ∧ max_negotiation_rounds = 10 := by
  decide

/-- C6 counterexample: in a run where the provider accepts the initial
proposal, the requester emits sequenceId 1 for the proposal and sequenceId 1
again for the acceptance echo — not a strictly increasing progression with
step 2. -/
theorem sequence_ids_not_strictly_increasing :
    emittedRounds requesterAcceptRun = [1, 1]
    ∧ isStrictStepTwo (emittedRounds requesterAcceptRun) = false := by
  decide

/-! ## Proofs: negotiator rounds -/

lemma evaluate_as_requester_round (st : NegotiatorState) (cand : String)
    (reply : LLMReply) :
    (evaluate_as_requester st cand reply).2.negotiation_round = st.negotiation_round
      ∨ (evaluate_as_requester st cand reply).2.negotiation_round
          = st.negotiation_round + 2 := by
  cases reply with
  | apiError => exact Or.inl rfl
  | badContent => exact Or.inl rfl
  | json j =>
    right
    simp only [evaluate_as_requester]
    split <;> split <;> rfl

lemma evaluate_as_provider_round (st : NegotiatorState) (cand : String)
    (reply : LLMReply) :
    (evaluate_as_provider st cand reply).2.negotiation_round = st.negotiation_round
      ∨ (evaluate_as_provider st cand reply).2.negotiation_round
          = st.negotiation_round + 2 := by
  cases reply with
  | apiError => exact Or.inl rfl
  | badContent => exact Or.inr rfl
  | json j =>
    right
    simp only [evaluate_as_provider]
    split <;> split <;> rfl

lemma evaluate_protocol_proposal_round (st : NegotiatorState) (ns : NegotiationStatus)
    (cr : Option Int) (cand : String) (reply : LLMReply) :
    ((evaluate_protocol_proposal st ns cr cand reply).round = st.negotiation_round
      ∨ (evaluate_protocol_proposal st ns cr cand reply).round = st.negotiation_round + 2)
    ∧ (evaluate_protocol_proposal st ns cr cand reply).state.negotiation_round
        = (evaluate_protocol_proposal st ns cr cand reply).round := by
  cases ns with
  | ACCEPTED => exact ⟨Or.inl rfl, rfl⟩
  | REJECTED => exact ⟨Or.inl rfl, rfl⟩
  | NEGOTIATING =>
    cases hrole : st.role with
    | PROVIDER =>
      refine ⟨?_, ?_⟩
      · simpa [evaluate_protocol_proposal, hrole]
          using evaluate_as_provider_round st cand reply
      · simp [evaluate_protocol_proposal, hrole]
    | REQUESTER =>
      refine ⟨?_, ?_⟩
      · simpa [evaluate_protocol_proposal, hrole]
          using evaluate_as_requester_round st cand reply
      · simp [evaluate_protocol_proposal, hrole]

lemma process_rounds_chain (msgs : List InboundMessage) :
    ∀ st : NegotiatorState,
    stepZeroOrTwoFrom st.negotiation_round
      ((process_negotiation_messages st msgs).emissions.map Prod.fst) = true := by
  induction msgs with
  | nil => intro st; simp [process_negotiation_messages, stepZeroOrTwoFrom]
  | cons msg rest ih =>
    intro st
    obtain ⟨hor, hst⟩ := evaluate_protocol_proposal_round st msg.status msg.sequenceId
      msg.candidateProtocols msg.llm
    rcases hres : (evaluate_protocol_proposal st msg.status msg.sequenceId
        msg.candidateProtocols msg.llm).result.status with _ | _ | _
    · have htail := ih (evaluate_protocol_proposal st msg.status msg.sequenceId
        msg.candidateProtocols msg.llm).state
      rw [hst] at htail
      simp [process_negotiation_messages, hres, stepZeroOrTwoFrom, htail]
      rcases hor with h | h <;> simp [h]
    · simp [process_negotiation_messages, hres, stepZeroOrTwoFrom]
      rcases hor with h | h <;> simp [h]
    · simp [process_negotiation_messages, hres, stepZeroOrTwoFrom]
      rcases hor with h | h <;> simp [h]

lemma stepZeroOrTwoFrom_parity (l : List Nat) :
    ∀ r, stepZeroOrTwoFrom r l = true → ∀ x ∈ l, x % 2 = r % 2 := by
  induction l with
  | nil => simp
  | cons a t ih =>
    intro r h x hx
    simp only [stepZeroOrTwoFrom, Bool.and_eq_true, Bool.or_eq_true, beq_iff_eq] at h
    rcases List.mem_cons.mp hx with hx | hx
    · subst hx
      rcases h.1 with h1 | h1 <;> subst h1 <;> omega
    · have := ih a h.2 x hx
      rcases h.1 with h1 | h1 <;> subst h1 <;> omega

lemma generate_initial_protocol_round (init : InitialLLM) :
    (generate_initial_protocol init).2.2.1 = 1
    ∧ (generate_initial_protocol init).2.2.2.negotiation_round = 1 := by
  cases init <;> exact ⟨rfl, rfl⟩

lemma negotiate_protocol_emissions (ps ls : Bool) (init : InitialLLM)
    (msgs : List InboundMessage) (cg : CodeGenOutcome) :
    (negotiate_protocol ps ls init msgs cg).emissions
      = ((generate_initial_protocol init).2.2.1, (generate_initial_protocol init).2.1)
        :: (process_negotiation_messages (generate_initial_protocol init).2.2.2 msgs).emissions := by
  cases hpo : (process_negotiation_messages (generate_initial_protocol init).2.2.2 msgs).success with
  | false => simp [negotiate_protocol, hpo]
  | true =>
    cases cg with
    | raise => simp [negotiate_protocol, hpo]
    | result b p =>
      cases b <;> cases hps : ps <;> cases hls : ls <;> simp [negotiate_protocol, hpo]

lemma wait_remote_negotiation_emissions (ps ls : Bool)
    (msgs : List InboundMessage) (cg : CodeGenOutcome) :
    (wait_remote_negotiation ps ls msgs cg).emissions
      = (process_negotiation_messages initialNegotiatorState msgs).emissions := by
  cases hpo : (process_negotiation_messages initialNegotiatorState msgs).success with
  | false => simp [wait_remote_negotiation, hpo]
  | true =>
    cases cg with
    | raise => simp [wait_remote_negotiation, hpo]
    | result b p =>
      cases b <;> cases hps : ps <;> cases hls : ls <;> simp [wait_remote_negotiation, hpo]

/-- C6 (amended): the sequenceIds one party emits are nondecreasing,
advancing by exactly 2 at each fresh LLM evaluation and repeated unchanged
on terminal-echo or evaluation-error emissions; the requester's values are
odd starting at round 1, the provider's are even (counter starting at 0),
so a party's own rounds never collide with the counterparty's. -/
theorem sequence_ids_parity_and_steps
    (ps ls : Bool) (init : InitialLLM) (msgs : List InboundMessage) (cg : CodeGenOutcome)
    (ps' ls' : Bool) (msgs' : List InboundMessage) (cg' : CodeGenOutcome) :
    (∃ tl, emittedRounds (negotiate_protocol ps ls init msgs cg) = 1 :: tl
        ∧ stepZeroOrTwoFrom 1 tl = true)
    ∧ stepZeroOrTwoFrom 0 (emittedRounds (wait_remote_negotiation ps' ls' msgs' cg')) = true
    ∧ (∀ x ∈ emittedRounds (negotiate_protocol ps ls init msgs cg), x % 2 = 1)
    ∧ (∀ y ∈ emittedRounds (wait_remote_negotiation ps' ls' msgs' cg'), y % 2 = 0)
    ∧ (∀ x ∈ emittedRounds (negotiate_protocol ps ls init msgs cg),
        ∀ y ∈ emittedRounds (wait_remote_negotiation ps' ls' msgs' cg'), x ≠ y) := by
  have hreq : emittedRounds (negotiate_protocol ps ls init msgs cg)
      = 1 :: ((process_negotiation_messages (generate_initial_protocol init).2.2.2
          msgs).emissions.map Prod.fst) := by
    rw [emittedRounds, negotiate_protocol_emissions, List.map_cons,
      (generate_initial_protocol_round init).1]
  have hprov : emittedRounds (wait_remote_negotiation ps' ls' msgs' cg')
      = (process_negotiation_messages initialNegotiatorState msgs').emissions.map Prod.fst := by
    rw [emittedRounds, wait_remote_negotiation_emissions]
  have hchainR := process_rounds_chain msgs (generate_initial_protocol init).2.2.2
  rw [(generate_initial_protocol_round init).2] at hchainR
  have hchainP := process_rounds_chain msgs' initialNegotiatorState
  have hparR : ∀ x ∈ emittedRounds (negotiate_protocol ps ls init msgs cg), x % 2 = 1 := by
    intro x hx
    rw [hreq] at hx
    rcases List.mem_cons.mp hx with hx | hx
    · subst hx; rfl
    · simpa using stepZeroOrTwoFrom_parity _ 1 hchainR x hx
  have hparP : ∀ y ∈ emittedRounds (wait_remote_negotiation ps' ls' msgs' cg'), y % 2 = 0 := by
    intro y hy
    rw [hprov] at hy
    simpa using stepZeroOrTwoFrom_parity _ 0 hchainP y hy
  refine ⟨⟨_, hreq, hchainR⟩, ?_, hparR, hparP, ?_⟩
  · rw [hprov]; exact hchainP
  · intro x hx y hy
    have h1 := hparR x hx
    have h2 := hparP y hy
    omega

/-- Witness for C6 (amended) in the one-round accept scenario: the
requester's emissions are the odd round 1, the provider's the even round 2,
and they do not collide. -/
theorem sequence_ids_parity_and_steps_witness :
    1 ∈ emittedRounds requesterAcceptRun
    ∧ 2 ∈ emittedRounds providerAcceptRun
    ∧ (1 : Nat) ≠ 2 := by
  have h := sequence_ids_parity_and_steps true true (.ok "AGREED") [demoAcceptInbound]
    (.result true "generated_module") true true providerAcceptMessages
    (.result true "generated_module")
  exact ⟨by decide, by decide, h.2.2.2.2 1 (by decide) 2 (by decide)⟩

/-- C7: when the local LLM verdict is ACCEPTED, the returned
`NegotiationResult` carries the counterparty's proposal under evaluation as
`candidate_protocol`, discarding whatever the LLM itself proposed — on both
the requester and the provider side. -/
theorem accepted_result_echoes_counterparty_proposal (st : NegotiatorState)
    (cand : String) (reply : LLMReply) :
    ((evaluate_as_requester st cand reply).1.status = .ACCEPTED →
        (evaluate_as_requester st cand reply).1.candidate_protocol = cand)
    ∧ ((evaluate_as_provider st cand reply).1.status = .ACCEPTED →
        (evaluate_as_provider st cand reply).1.candidate_protocol = cand) := by
  constructor
  · cases reply with
    | apiError =>
      intro h
      exact absurd h (by simp [evaluate_as_requester, evaluationErrorResult])
    | badContent =>
      intro h
      exact absurd h (by simp [evaluate_as_requester, evaluationErrorResult])
    | json j =>
      by_cases hp : (parse_negotiation_result j).status = NegotiationStatus.ACCEPTED
      · intro _
        simp [evaluate_as_requester, hp]
      · intro h
        exfalso
        simp [evaluate_as_requester, hp] at h
  · cases reply with
    | apiError =>
      intro h
      exact absurd h (by simp [evaluate_as_provider, evaluationErrorResult])
    | badContent =>
      intro h
      exact absurd h (by simp [evaluate_as_provider, evaluationErrorResult])
    | json j =>
      by_cases hp : (parse_negotiation_result j).status = NegotiationStatus.ACCEPTED
      · intro _
        simp [evaluate_as_provider, hp]
      · intro h
        exfalso
        simp [evaluate_as_provider, hp] at h

/-- Witness for C7: the LLM accepts while proposing "LLMPROPOSAL"; the
result nevertheless carries the counterparty's "AGREED". -/
theorem accepted_result_echoes_counterparty_proposal_witness :
    (evaluate_as_requester initialNegotiatorState "AGREED" demoAcceptedReply).1.candidate_protocol
      = "AGREED"
    ∧ ("LLMPROPOSAL" : String) ≠ "AGREED" :=
  ⟨(accepted_result_echoes_counterparty_proposal initialNegotiatorState "AGREED"
      demoAcceptedReply).1 (by decide),
   by decide⟩

/-- C8: a counterparty sequenceId different from `negotiation_round + 1` is
only logged; `evaluate_protocol_proposal` returns the same result, round and
state as for any other sequenceId (in particular a matching one), so a
mismatch alone never yields REJECTED. -/
theorem sequence_mismatch_tolerated (st : NegotiatorState) (ns : NegotiationStatus)
    (r r' : Int) (cand : String) (reply : LLMReply) :
    ((evaluate_protocol_proposal st ns (some r) cand reply).result
        = (evaluate_protocol_proposal st ns (some r') cand reply).result
      ∧ (evaluate_protocol_proposal st ns (some r) cand reply).round
        = (evaluate_protocol_proposal st ns (some r') cand reply).round
      ∧ (evaluate_protocol_proposal st ns (some r) cand reply).state
        = (evaluate_protocol_proposal st ns (some r') cand reply).state)
    ∧ (r ≠ (st.negotiation_round : Int) + 1 →
        (evaluate_protocol_proposal st ns (some r) cand reply).roundMismatchLogged = true)
    ∧ (evaluate_protocol_proposal st ns
        (some ((st.negotiation_round : Int) + 1)) cand reply).roundMismatchLogged = false := by
  refine ⟨⟨?_, ?_, ?_⟩, ?_, ?_⟩
  · cases ns <;> rfl
  · cases ns <;> rfl
  · cases ns <;> rfl
  · intro h
    cases ns <;> simp [evaluate_protocol_proposal, h]
  · cases ns <;> simp [evaluate_protocol_proposal]

/-- Witness for C8: sequenceId 5 against local round 0 (expected 1) is
logged as a mismatch yet produces the same result as sequenceId 1. -/
theorem sequence_mismatch_tolerated_witness :
    (evaluate_protocol_proposal initialNegotiatorState .NEGOTIATING (some 5) "AGREED"
        demoNegotiatingReply).roundMismatchLogged = true
    ∧ (evaluate_protocol_proposal initialNegotiatorState .NEGOTIATING (some 5) "AGREED"
        demoNegotiatingReply).result
      = (evaluate_protocol_proposal initialNegotiatorState .NEGOTIATING (some 1) "AGREED"
        demoNegotiatingReply).result :=
  ⟨(sequence_mismatch_tolerated initialNegotiatorState .NEGOTIATING 5 1 "AGREED"
      demoNegotiatingReply).2.1 (by decide),
   (sequence_mismatch_tolerated initialNegotiatorState .NEGOTIATING 5 1 "AGREED"
      demoNegotiatingReply).1.1⟩

/-- C10: `negotiate_protocol` and `wait_remote_negotiation` return
`(False, "")` whenever the protocol code path or the LLM is unset, even if
the negotiation itself succeeded; a `(True, module_path)` outcome requires
both to be set, the message loop to succeed, and code generation to return
success. -/
theorem success_requires_code_generation :
    (∀ (ps ls : Bool) (init : InitialLLM) (msgs : List InboundMessage) (cg : CodeGenOutcome),
        ps = false ∨ ls = false →
          (negotiate_protocol ps ls init msgs cg).success = false
          ∧ (negotiate_protocol ps ls init msgs cg).module_path = "")
    ∧ (∀ (ps ls : Bool) (msgs : List InboundMessage) (cg : CodeGenOutcome),
        ps = false ∨ ls = false →
          (wait_remote_negotiation ps ls msgs cg).success = false
          ∧ (wait_remote_negotiation ps ls msgs cg).module_path = "")
    ∧ (∀ (ps ls : Bool) (init : InitialLLM) (msgs : List InboundMessage) (cg : CodeGenOutcome),
        (negotiate_protocol ps ls init msgs cg).success = true →
          ps = true ∧ ls = true
          ∧ ∃ p, cg = .result true p
              ∧ (negotiate_protocol ps ls init msgs cg).module_path = p
              ∧ (process_negotiation_messages (generate_initial_protocol init).2.2.2
                  msgs).success = true)
    ∧ (∀ (ps ls : Bool) (msgs : List InboundMessage) (cg : CodeGenOutcome),
        (wait_remote_negotiation ps ls msgs cg).success = true →
          ps = true ∧ ls = true
          ∧ ∃ p, cg = .result true p
              ∧ (wait_remote_negotiation ps ls msgs cg).module_path = p
              ∧ (process_negotiation_messages initialNegotiatorState msgs).success = true) := by
  refine ⟨?_, ?_, ?_, ?_⟩
  · intro ps ls init msgs cg h
    cases hpo : (process_negotiation_messages (generate_initial_protocol init).2.2.2
        msgs).success with
    | false => simp [negotiate_protocol, hpo]
    | true =>
      rcases h with h | h <;> subst h <;> simp [negotiate_protocol, hpo]
  · intro ps ls msgs cg h
    cases hpo : (process_negotiation_messages initialNegotiatorState msgs).success with
    | false => simp [wait_remote_negotiation, hpo]
    | true =>
      rcases h with h | h <;> subst h <;> simp [wait_remote_negotiation, hpo]
  · intro ps ls init msgs cg hsucc
    cases hpo : (process_negotiation_messages (generate_initial_protocol init).2.2.2
        msgs).success with
    | false => simp [negotiate_protocol, hpo] at hsucc
    | true =>
      cases hb : (ps && ls) with
      | false => simp [negotiate_protocol, hpo, hb] at hsucc
      | true =>
        obtain ⟨hps, hls⟩ := Bool.and_eq_true ps ls ▸ hb
        cases cg with
        | raise => simp [negotiate_protocol, hpo, hb] at hsucc
        | result b p =>
          cases b with
          | false => simp [negotiate_protocol, hpo, hb] at hsucc
          | true =>
            exact ⟨hps, hls, p, rfl, by simp [negotiate_protocol, hpo, hb], rfl⟩
  · intro ps ls msgs cg hsucc
    cases hpo : (process_negotiation_messages initialNegotiatorState msgs).success with
    | false => simp [wait_remote_negotiation, hpo] at hsucc
    | true =>
      cases hb : (ps && ls) with
      | false => simp [wait_remote_negotiation, hpo, hb] at hsucc
      | true =>
        obtain ⟨hps, hls⟩ := Bool.and_eq_true ps ls ▸ hb
        cases cg with
        | raise => simp [wait_remote_negotiation, hpo, hb] at hsucc
        | result b p =>
          cases b with
          | false => simp [wait_remote_negotiation, hpo, hb] at hsucc
          | true =>
            exact ⟨hps, hls, p, rfl, by simp [wait_remote_negotiation, hpo, hb], rfl⟩

/-- Witness for C10: the negotiation reaches ACCEPTED, yet with the code
path unset the requester entry point reports `(False, "")`. -/
theorem success_requires_code_generation_witness :
    (negotiate_protocol false true (.ok "AGREED") [demoAcceptInbound]
        (.result true "generated_module")).success = false
    ∧ (process_negotiation_messages (generate_initial_protocol (.ok "AGREED")).2.2.2
        [demoAcceptInbound]).success = true :=
  ⟨(success_requires_code_generation.1 false true (.ok "AGREED") [demoAcceptInbound]
      (.result true "generated_module") (Or.inl rfl)).1,
   by decide⟩

/-! ## Proofs: artifact registry -/

lemma verify_protocol_files_spec (hashFn : HashFn) (fs : FileSystem) (dir : String)
    (md : BundleMetaData) (h : verify_protocol_files hashFn fs dir md = true) :
    ∀ e ∈ md.files, ∃ c, fsRead fs (joinPath dir e.2.file) = some c
      ∧ hashFn c = e.2.hash := by
  intro e he
  have hb := List.all_eq_true.mp h e he
  cases hc : fsRead fs (joinPath dir e.2.file) with
  | none =>
    exfalso
    rw [hc] at hb
    simp at hb
  | some c =>
    rw [hc] at hb
    simp [verify_file_hash, calculate_file_hash, hc] at hb
    exact ⟨c, rfl, hb⟩

lemma mkRequesterContainer_hash (o : LoadOracle) (fs : FileSystem) (dir : String)
    (md : BundleMetaData) (rc : RequesterContainer)
    (h : mkRequesterContainer o fs dir md = some rc) :
    ∃ di, md.getFile? "protocol_document" = some di ∧ rc.protocol_hash = di.hash := by
  unfold mkRequesterContainer at h
  split at h
  · exact Option.noConfusion h
  rename_i di hdoc
  split at h
  · exact Option.noConfusion h
  rename_i content h1
  split at h
  · exact Option.noConfusion h
  rename_i desc_info h2
  split at h
  · exact Option.noConfusion h
  rename_i desc_bytes h3
  split at h
  · exact Option.noConfusion h
  rename_i ci h4
  split at h
  · exact Option.noConfusion h
  rename_i req_info h5
  injection h with h
  subst h
  exact ⟨di, hdoc, rfl⟩

lemma mkProviderContainer_hash (o : LoadOracle) (fs : FileSystem) (dir : String)
    (md : BundleMetaData) (pc : ProviderContainer)
    (h : mkProviderContainer o fs dir md = some pc) :
    ∃ di, md.getFile? "protocol_document" = some di ∧ pc.protocol_hash = di.hash := by
  unfold mkProviderContainer at h
  split at h
  · exact Option.noConfusion h
  rename_i di hdoc
  split at h
  · exact Option.noConfusion h
  rename_i content h1
  split at h
  · exact Option.noConfusion h
  rename_i desc_info h2
  split at h
  · exact Option.noConfusion h
  rename_i desc_bytes h3
  split at h
  · exact Option.noConfusion h
  rename_i ci h4
  split at h
  · exact Option.noConfusion h
  rename_i cb h5
  split at h
  · exact Option.noConfusion h
  rename_i prov_info h6
  injection h with h
  subst h
  exact ⟨di, hdoc, rfl⟩

lemma register_requester_hash (st : AppProtocolsState) (rc : RequesterContainer)
    (ph : String) (h : (register_requester st rc).1 = some ph) :
    ph = rc.protocol_hash := by
  unfold register_requester at h
  split at h
  · exact (Option.some.injEq _ _ ▸ h).symm
  · exact Option.noConfusion h

lemma register_provider_hash (prev : Option String) (st : AppProtocolsState)
    (pc : ProviderContainer) (ph : String)
    (h : (register_provider prev st pc).1 = some ph) :
    ph = pc.protocol_hash ∨ prev = some ph := by
  unfold register_provider at h
  split at h
  · exact Or.inl (Option.some.injEq _ _ ▸ h).symm
  · exact Or.inr h

/-- C2: `load_protocol` admits a bundle — returns a protocol hash (the
recorded hash of `protocol_document`) — only when `meta_data.json` exists,
parses, and every file listed in its `files` map exists on disk with a
freshly recomputed hash equal to the recorded one; and whenever any listed
file is missing or hash-mismatched, it returns `None` and leaves both
registries untouched. -/
theorem load_protocol_requires_verification :
    (∀ (o : LoadOracle) (hashFn : HashFn) (fs : FileSystem) (st : AppProtocolsState)
        (dir : String) (ph : String) (st' : AppProtocolsState),
        load_protocol o hashFn fs st dir = (some ph, st') →
          ∃ mb md, fsRead fs (joinPath dir "meta_data.json") = some mb
            ∧ o.parseMeta mb = some md
            ∧ verify_protocol_files hashFn fs dir md = true
            ∧ (∀ e ∈ md.files, ∃ c, fsRead fs (joinPath dir e.2.file) = some c
                ∧ hashFn c = e.2.hash)
            ∧ ∃ di, md.getFile? "protocol_document" = some di ∧ ph = di.hash)
    ∧ (∀ (o : LoadOracle) (hashFn : HashFn) (fs : FileSystem) (st : AppProtocolsState)
        (dir : String) (mb : List Nat) (md : BundleMetaData),
        fsRead fs (joinPath dir "meta_data.json") = some mb →
        o.parseMeta mb = some md →
        verify_protocol_files hashFn fs dir md = false →
        load_protocol o hashFn fs st dir = (none, st)) := by
  constructor
  · intro o hashFn fs st dir ph st' hload
    unfold load_protocol at hload
    split at hload
    · simp at hload
    rename_i mb hmb
    split at hload
    · simp at hload
    rename_i md hmd
    split at hload
    case isFalse => simp at hload
    rename_i hver
    split at hload
    · simp at hload
    rename_i rc hrc
    split at hload
    · simp at hload
    rename_i pc hpc
    refine ⟨mb, md, hmb, hmd, hver,
      verify_protocol_files_spec hashFn fs dir md hver, ?_⟩
    obtain ⟨di, hdoc, hrch⟩ := mkRequesterContainer_hash o fs dir md rc hrc
    obtain ⟨di', hdoc', hpch⟩ := mkProviderContainer_hash o fs dir md pc hpc
    have hres := congrArg Prod.fst hload
    simp only at hres
    rcases register_provider_hash _ _ _ _ hres with hh | hh
    · exact ⟨di', hdoc', by rw [hh, hpch]⟩
    · exact ⟨di, hdoc, by rw [register_requester_hash st rc ph hh, hrch]⟩
  · intro o hashFn fs st dir mb md hmb hmd hver
    simp [load_protocol, hmb, hmd, hver]

/-- Witness for C2: a bundle whose recorded `doc.md` is absent from disk is
refused — `load_protocol` returns `None` and the registries are unchanged. -/
theorem load_protocol_requires_verification_witness :
    load_protocol demoOracle demoHashFn demoFS demoState "proto" = (none, demoState)
    ∧ verify_protocol_files demoHashFn demoFS "proto" demoMeta = false :=
  ⟨load_protocol_requires_verification.2 demoOracle demoHashFn demoFS demoState "proto"
      [0] demoMeta (by decide) (by decide) (by decide),
   by decide⟩
